import Mathlib

/-!
Formal model of the per-speaker audio slice engine
(src/model/audio_slice.rs of the discriviner repository).

Conventions of the embedding:
* `Duration` and `SystemTime` values are modelled as natural numbers of
  whole milliseconds (every duration appearing in the slice engine is a
  whole number of milliseconds).
* The 32-bit RTC media timestamp (`Wrapping<u32>`) is modelled as a
  natural number together with explicit reduction modulo `2^32`.
* `f32` audio samples are modelled as rationals; the arithmetic performed
  by the code (a sum of two 16-bit integers followed by one division by a
  constant) is exact.
* Calls to `SystemTime::now()` are modelled by threading an explicit
  `now` argument.
* Rust `Duration` subtraction panics on underflow; it is modelled by
  truncating natural subtraction, which coincides with the source
  whenever the subtraction does not underflow (invariant I4).
-/

def U32 : Nat := 4294967296

structure LastRequestInfo where
  start_time : Nat
  original_duration : Nat
  audio_trimmed_since_request : Nat
  in_progress : Bool
  requested_at : Nat
  final_request : Bool
deriving DecidableEq

/-- Modelled from the spec: the `Segment` entity of a transcript
(`{text, t_start, t_end, tokens[]}`, §3 "Transcript entity"); the
defining source file is not part of `src/`. -/
structure Segment where
  text : String
  t_start : Nat
  t_end : Nat
  tokens : List Int
deriving DecidableEq

/-- Modelled from the spec: the `Transcript` entity (ordered segments
plus total `audio_duration` and `start_timestamp`); the defining source
file is not part of `src/`. -/
structure Transcription where
  start_timestamp : Nat
  audio_duration : Nat
  segments : List Segment
deriving DecidableEq

structure AudioSlice where
  audio : List ℚ
  finalized : Bool
  last_request : Option LastRequestInfo
  slice_id : Nat
  start_time : Option (Nat × Nat)
  tentative_transcript_opt : Option Transcription
deriving DecidableEq

def duration_to_rtc (ms : Nat) : Nat := (ms * 48) % U32

def rtc_timestamp_to_index (ts1 ts2 : Nat) : Nat :=
  (((ts2 + U32) - ts1) % U32) * 16 / 48

def discord_samples_to_whisper_samples (samples : Nat) : Nat := samples / 6

def samples_to_duration (num_samples : Nat) : Nat := num_samples / 16

def LastRequestInfo.effective_duration (r : LastRequestInfo) : Nat :=
  r.original_duration - r.audio_trimmed_since_request

def AudioSlice.new (slice_id : Nat) : AudioSlice :=
  { audio := [], finalized := false, last_request := none,
    slice_id := slice_id, start_time := none, tentative_transcript_opt := none }

def AudioSlice.buffer_duration (s : AudioSlice) : Nat :=
  samples_to_duration s.audio.length

def AudioSlice.clear (s : AudioSlice) : AudioSlice :=
  { s with audio := [], finalized := false, last_request := none,
           start_time := none, tentative_transcript_opt := none }

def AudioSlice.fits_within_this_slice (s : AudioSlice) (rtc_timestamp : Nat) : Bool :=
  match s.start_time with
  | some (start_rtc, _) =>
    let current_end := (start_rtc + duration_to_rtc s.buffer_duration) % U32
    let timeout := duration_to_rtc 30000
    let e := (current_end + timeout) % U32
    if start_rtc < e then
      decide (start_rtc ≤ rtc_timestamp ∧ rtc_timestamp < e)
    else
      decide (rtc_timestamp < e ∨ start_rtc ≤ rtc_timestamp)
  | none => true

/-- The downmix/decimation loop of `resample_audio_from_discord_to_whisper`:
`chunks_exact(6)` over the interleaved stereo input, per chunk the sum of
the first two samples divided by `DISCORD_AUDIO_MAX_VALUE_TWO_SAMPLES`
(`= i16::MAX * 2 = 65534`). -/
def downmix : List Int → List ℚ
  | a :: b :: _ :: _ :: _ :: _ :: rest => (((a : ℚ) + (b : ℚ)) / 65534) :: downmix rest
  | _ => []

def AudioSlice.resample_audio_from_discord_to_whisper
    (s : AudioSlice) (start_index : Nat) (discord_audio : List Int) : AudioSlice :=
  let end_index := start_index + discord_samples_to_whisper_samples discord_audio.length
  let buffer_len := max s.audio.length end_index
  let resized := s.audio ++ List.replicate (buffer_len - s.audio.length) (0 : ℚ)
  { s with audio := resized.take start_index ++ downmix discord_audio ++ resized.drop end_index }

def AudioSlice.add_audio (s : AudioSlice) (rtc_timestamp : Nat)
    (discord_audio : List Int) (now : Nat) : AudioSlice :=
  if s.fits_within_this_slice rtc_timestamp then
    match s.start_time with
    | some (start_rtc, _) =>
      AudioSlice.resample_audio_from_discord_to_whisper { s with finalized := false }
        (rtc_timestamp_to_index start_rtc rtc_timestamp) discord_audio
    | none =>
      AudioSlice.resample_audio_from_discord_to_whisper
        { s with finalized := false, start_time := some (rtc_timestamp, now) }
        0 discord_audio
  else s

def AudioSlice.is_ready_for_transcription (s : AudioSlice) (user_silent : Bool) : Bool :=
  match s.start_time with
  | none => false
  | some _ =>
    if s.finalized then true
    else if (match s.last_request with | some r => r.in_progress | none => false) then false
    else if user_silent then true
    else
      let current_period := s.buffer_duration / 5000
      let last_period :=
        match s.last_request with
        | some r => r.effective_duration / 5000
        | none => 0
      decide (last_period ≠ current_period)

def AudioSlice.make_transcription_request (s : AudioSlice) (user_idle : Bool)
    (now : Nat) : Option (List ℚ × Nat × Nat) × AudioSlice :=
  if s.is_ready_for_transcription user_idle then
    match s.start_time with
    | some (_, start_wall) =>
      let duration := s.buffer_duration
      let new_request : LastRequestInfo :=
        { start_time := start_wall, audio_trimmed_since_request := 0,
          original_duration := duration, in_progress := true,
          requested_at := now, final_request := s.finalized }
      match s.last_request with
      | some last =>
        if last.start_time = new_request.start_time ∧
            last.original_duration = new_request.original_duration then
          if new_request.final_request then
            (none, { s with last_request := some { last with final_request := true } })
          else
            (none, s)
        else
          (some (s.audio, duration, start_wall), { s with last_request := some new_request })
      | none =>
        (some (s.audio, duration, start_wall), { s with last_request := some new_request })
    | none => (none, s)
  else (none, s)

def AudioSlice.discard_audio (s : AudioSlice) (duration : Nat) : AudioSlice :=
  let discard_idx := duration * 16
  if duration = 0 then s
  else if s.audio.length ≤ discard_idx then s.clear
  else
    { s with
      audio := s.audio.drop discard_idx,
      start_time := s.start_time.map
        (fun p => ((p.1 + duration_to_rtc duration) % U32, p.2 + duration)),
      last_request := s.last_request.map
        (fun r => { r with
          audio_trimmed_since_request := r.audio_trimmed_since_request + duration }) }

def AudioSlice.finalize (s : AudioSlice) : Option Transcription × AudioSlice :=
  let s1 : AudioSlice := { s with finalized := true }
  match s1.tentative_transcript_opt with
  | none => (none, s1)
  | some tentative_transcript =>
    let s2 : AudioSlice := { s1 with tentative_transcript_opt := none }
    if tentative_transcript.audio_duration = s2.buffer_duration then
      (some tentative_transcript, s2.clear)
    else
      (none, s2)

/-- Modelled from the spec: `Transcript.split_at_end_time(cutoff)` (§3);
the defining source file is not part of `src/`.  Finalized = all segments
whose end (expressed on the wall clock by offsetting `start_timestamp`)
is at most the cutoff, tentative = the rest; the two `audio_duration`s
sum exactly to the original's. -/
def Transcription.split_at_end_time (msg : Transcription) (cutoff : Nat) :
    Transcription × Transcription :=
  let fin_segs := msg.segments.filter (fun seg => msg.start_timestamp + seg.t_end ≤ cutoff)
  let tent_segs := msg.segments.filter (fun seg => cutoff < msg.start_timestamp + seg.t_end)
  let fin_dur :=
    match tent_segs.head? with
    | none => msg.audio_duration
    | some seg => min seg.t_start msg.audio_duration
  (⟨msg.start_timestamp, fin_dur, fin_segs⟩,
   ⟨msg.start_timestamp + fin_dur, msg.audio_duration - fin_dur, tent_segs⟩)

def AudioSlice.handle_transcription_response (s : AudioSlice)
    (message : Transcription) (now : Nat) : Option Transcription × AudioSlice :=
  match s.last_request with
  | none => (none, s)
  | some last =>
    if last.start_time ≠ message.start_timestamp then (none, s)
    else if message.audio_duration ≠ last.original_duration then (none, s)
    else
      let s1 : AudioSlice := { s with last_request := some { last with in_progress := false } }
      let end_time := if last.final_request then now + 1000000 else last.requested_at - 1000
      let p := Transcription.split_at_end_time message end_time
      let s2 := s1.discard_audio p.1.audio_duration
      let s3 :=
        if s2.buffer_duration = p.2.audio_duration then
          { s2 with tentative_transcript_opt := some p.2 }
        else
          { s2 with tentative_transcript_opt := none }
      if p.1.segments.isEmpty then (none, s3) else (some p.1, s3)

/-! ## Helper lemmas -/

theorem downmix_length : ∀ l : List Int, (downmix l).length = l.length / 6
  | a :: b :: c :: d :: e :: f :: rest => by
    simp [downmix, downmix_length rest]
    omega
  | [] => by simp [downmix]
  | [_] => by simp [downmix]
  | [_, _] => by simp [downmix]
  | [_, _, _] => by simp [downmix]
  | [_, _, _, _] => by simp [downmix]
  | [_, _, _, _, _] => by simp [downmix]

/-! ## C1 -/

def c1_request : LastRequestInfo :=
  { start_time := 5, original_duration := 0, audio_trimmed_since_request := 0,
    in_progress := true, requested_at := 1, final_request := false }

def c1_state : AudioSlice :=
  { audio := [], finalized := false, last_request := some c1_request,
    slice_id := 0, start_time := some (0, 5), tentative_transcript_opt := none }

/-- C1: at a slice whose `start` is set, whose `finalized` flag is false and
whose `last_request` is present with `in_progress` true, the user-idle call
`make_transcription_request(user_idle = true)` returns None (not Some as the
spec claims): the in-progress early return in `is_ready_for_transcription`
precedes the user-silent check, so the idle path never relaxes I3. -/
theorem c1_user_idle_request_blocked :
    c1_state.make_transcription_request true 9 = (none, c1_state) := by
  decide

/-! ## C4 -/

/-- C4: a transcription response whose `(start_timestamp, audio_duration)`
does not match the stored `last_request` — or arriving when `last_request`
is None — is rejected: `handle_transcription_response` returns None and the
slice is left completely unchanged. -/
theorem c4_mismatch_rejected (s : AudioSlice) (msg : Transcription) (now : Nat)
    (h : s.last_request = none ∨ ∃ r, s.last_request = some r ∧
      (r.start_time ≠ msg.start_timestamp ∨ msg.audio_duration ≠ r.original_duration)) :
    s.handle_transcription_response msg now = (none, s) := by
  rcases h with h | ⟨r, hr, hm⟩
  · simp [AudioSlice.handle_transcription_response, h]
  · rcases hm with hm | hm
    · simp [AudioSlice.handle_transcription_response, hr, hm]
    · by_cases hst : r.start_time = msg.start_timestamp
      · simp [AudioSlice.handle_transcription_response, hr, hst, hm]
      · simp [AudioSlice.handle_transcription_response, hr, hst]

def c4_request : LastRequestInfo :=
  { start_time := 5, original_duration := 1000, audio_trimmed_since_request := 0,
    in_progress := true, requested_at := 1, final_request := false }

def c4_state : AudioSlice :=
  { audio := List.replicate 16000 (0 : ℚ), finalized := false,
    last_request := some c4_request,
    slice_id := 0, start_time := some (0, 5), tentative_transcript_opt := none }

def c4_message : Transcription :=
  { start_timestamp := 5, audio_duration := 900, segments := [] }

theorem c4_witness :
    (c4_state.last_request = none ∨ ∃ r, c4_state.last_request = some r ∧
      (r.start_time ≠ c4_message.start_timestamp ∨
        c4_message.audio_duration ≠ r.original_duration)) ∧
    c4_state.handle_transcription_response c4_message 7 = (none, c4_state) :=
  ⟨Or.inr ⟨c4_request, rfl, Or.inr (by decide)⟩,
   c4_mismatch_rejected c4_state c4_message 7
     (Or.inr ⟨c4_request, rfl, Or.inr (by decide)⟩)⟩

/-! ## C5 -/

/-- C5: for a slice with `start` set and a whole-millisecond duration
`0 < d < buffer_duration()`, `discard_audio(d)` drops exactly `d * 16`
samples from the front of `audio`, advances `start.media_ts` by exactly
`d * 48` RTC ticks modulo `2^32` and `start.wall` by exactly `d`, and adds
`d` to `last_request.audio_trimmed_since_request` when a request record is
present. -/
theorem c5_discard_spec (s : AudioSlice) (d a w : Nat)
    (hs : s.start_time = some (a, w)) (hd : 0 < d) (hlt : d < s.buffer_duration) :
    s.discard_audio d =
      { s with audio := s.audio.drop (d * 16),
               start_time := some ((a + d * 48) % U32, w + d),
               last_request := s.last_request.map (fun r =>
                 { r with audio_trimmed_since_request :=
                     r.audio_trimmed_since_request + d }) } ∧
    (s.discard_audio d).audio.length = s.audio.length - d * 16 := by
  have hlen : ¬ s.audio.length ≤ d * 16 := by
    have := hlt
    simp [AudioSlice.buffer_duration, samples_to_duration] at this
    omega
  have hmod : (a + duration_to_rtc d) % U32 = (a + d * 48) % U32 := by
    simp [duration_to_rtc, U32]
  constructor
  · simp [AudioSlice.discard_audio, Nat.pos_iff_ne_zero.mp hd, hlen, hs, hmod]
  · simp [AudioSlice.discard_audio, Nat.pos_iff_ne_zero.mp hd, hlen]

def c5_state : AudioSlice :=
  { audio := List.replicate 32 (0 : ℚ), finalized := false, last_request := none,
    slice_id := 0, start_time := some (3, 5), tentative_transcript_opt := none }

theorem c5_witness :
    c5_state.start_time = some (3, 5) ∧ 0 < 1 ∧ 1 < c5_state.buffer_duration ∧
    (c5_state.discard_audio 1 =
      { c5_state with audio := c5_state.audio.drop 16,
                      start_time := some ((3 + 48) % U32, 6),
                      last_request := none } ∧
     (c5_state.discard_audio 1).audio.length = c5_state.audio.length - 16) :=
  ⟨rfl, by decide, by decide, c5_discard_spec c5_state 1 3 5 rfl (by decide) (by decide)⟩

/-! ## C8 -/

/-- C8: `finalize()` returns Some together with a reset to the pristine
state exactly when a tentative transcript is stored whose `audio_duration`
equals `buffer_duration()`; in every other case it returns None and the
slice ends with `finalized = true`. -/
theorem c8_finalize_spec (s : AudioSlice) :
    (∀ t, s.tentative_transcript_opt = some t → t.audio_duration = s.buffer_duration →
      s.finalize = (some t, s.clear)) ∧
    ((∀ t, s.tentative_transcript_opt = some t → t.audio_duration ≠ s.buffer_duration) →
      (s.finalize).1 = none ∧ (s.finalize).2.finalized = true) := by
  constructor
  · intro t ht hdur
    simp [AudioSlice.finalize, ht]
    have hbd : s.buffer_duration =
        AudioSlice.buffer_duration { s with finalized := true, tentative_transcript_opt := none } := rfl
    rw [hbd] at hdur
    simp [hdur]
    simp [AudioSlice.clear]
  · intro hmis
    cases ht : s.tentative_transcript_opt with
    | none => simp [AudioSlice.finalize, ht]
    | some t =>
      have := hmis t ht
      have hne : ¬ t.audio_duration =
          AudioSlice.buffer_duration { s with finalized := true, tentative_transcript_opt := none } := this
      simp [AudioSlice.finalize, ht, hne]

def c8_transcript : Transcription :=
  { start_timestamp := 5, audio_duration := 1, segments := [] }

def c8_state : AudioSlice :=
  { audio := List.replicate 16 (0 : ℚ), finalized := false, last_request := none,
    slice_id := 4, start_time := some (0, 5),
    tentative_transcript_opt := some c8_transcript }

theorem c8_witness :
    (c8_state.tentative_transcript_opt = some c8_transcript ∧
     c8_transcript.audio_duration = c8_state.buffer_duration ∧
     c8_state.finalize = (some c8_transcript, c8_state.clear)) ∧
    ((c8_state.clear).finalize.1 = none ∧ ((c8_state.clear).finalize).2.finalized = true) :=
  ⟨⟨rfl, by decide,
    (c8_finalize_spec c8_state).1 c8_transcript rfl (by decide)⟩,
   (c8_finalize_spec c8_state.clear).2 (by intro t ht; simp [AudioSlice.clear] at ht)⟩

/-! ## C10 -/

/-- C10: `finalize()` on a slice whose stored tentative transcript has an
`audio_duration` different from `buffer_duration()` returns None yet still
removes the tentative transcript, leaving `audio`, `start_time` and
`last_request` unchanged (and `finalized` set); an immediately repeated
`finalize()` also returns None, so the tentative text is permanently lost. -/
theorem c10_mismatched_tentative (s : AudioSlice) (t : Transcription)
    (ht : s.tentative_transcript_opt = some t)
    (hm : t.audio_duration ≠ s.buffer_duration) :
    s.finalize = (none, { s with finalized := true, tentative_transcript_opt := none }) ∧
    ((s.finalize).2.finalize =
      (none, { s with finalized := true, tentative_transcript_opt := none })) := by
  have hne : ¬ t.audio_duration =
      AudioSlice.buffer_duration { s with finalized := true, tentative_transcript_opt := none } := hm
  have h1 : s.finalize =
      (none, { s with finalized := true, tentative_transcript_opt := none }) := by
    simp [AudioSlice.finalize, ht, hne]
  refine ⟨h1, ?_⟩
  rw [h1]
  simp [AudioSlice.finalize]

def c10_transcript : Transcription :=
  { start_timestamp := 5, audio_duration := 9, segments := [] }

def c10_state : AudioSlice :=
  { audio := List.replicate 16 (0 : ℚ), finalized := false, last_request := none,
    slice_id := 4, start_time := some (0, 5),
    tentative_transcript_opt := some c10_transcript }

theorem c10_witness :
    c10_state.tentative_transcript_opt = some c10_transcript ∧
    c10_transcript.audio_duration ≠ c10_state.buffer_duration ∧
    (c10_state.finalize =
      (none, { c10_state with finalized := true, tentative_transcript_opt := none }) ∧
     ((c10_state.finalize).2.finalize =
      (none, { c10_state with finalized := true, tentative_transcript_opt := none }))) :=
  ⟨rfl, by decide, c10_mismatched_tentative c10_state c10_transcript rfl (by decide)⟩

/-! ## C3 -/

theorem resample_length (s : AudioSlice) (st : Nat) (inp : List Int) :
    (s.resample_audio_from_discord_to_whisper st inp).audio.length =
      min st (max s.audio.length (st + inp.length / 6)) + inp.length / 6 +
        (max s.audio.length (st + inp.length / 6) - (st + inp.length / 6)) := by
  simp [AudioSlice.resample_audio_from_discord_to_whisper,
    discord_samples_to_whisper_samples, downmix_length, List.length_take,
    List.length_drop, List.length_append, List.length_replicate]
  omega

/-- C3 (amended): `add_audio` enforces no 480000-sample bound; what the
window check does is drop the *incoming* audio entirely whenever its
timestamp falls outside the admissible window, leaving the slice
unchanged. -/
theorem c3_out_of_window_drop (s : AudioSlice) (ts : Nat) (input : List Int) (now : Nat)
    (h : s.fits_within_this_slice ts = false) :
    s.add_audio ts input now = s := by
  simp [AudioSlice.add_audio, h]

def c3_s1 : AudioSlice :=
  (AudioSlice.new 0).add_audio 0 (List.replicate 6 (0 : Int)) 10

def c3_s2 : AudioSlice :=
  c3_s1.add_audio 1439999 (List.replicate 102 (0 : Int)) 20

def c3_r1 : AudioSlice :=
  { audio := [0], finalized := false, last_request := none,
    slice_id := 0, start_time := some (0, 10), tentative_transcript_opt := none }

theorem c3_s1_eq : c3_s1 = c3_r1 := by
  unfold c3_s1 c3_r1
  simp [AudioSlice.add_audio, AudioSlice.new, AudioSlice.fits_within_this_slice,
    AudioSlice.resample_audio_from_discord_to_whisper, downmix,
    discord_samples_to_whisper_samples, AudioSlice.buffer_duration,
    samples_to_duration, List.replicate]

theorem c3_step2 : c3_s2 =
    AudioSlice.resample_audio_from_discord_to_whisper c3_r1 479999
      (List.replicate 102 (0 : Int)) := by
  unfold c3_s2
  rw [c3_s1_eq]
  rfl

theorem c3_s2_length : c3_s2.audio.length = 480016 := by
  rw [c3_step2, resample_length]
  simp [List.length_replicate, c3_r1]

/-- C3 (counterexample): a state reachable by two `add_audio` calls from a
fresh slice holds 480016 > 480000 samples, i.e. `buffer_duration()` is
30001 ms, beyond the 30 s bound: the second packet lands at the far edge
of the admissible window and the buffer grows past 30 s instead of the
earliest audio being dropped. -/
theorem c3_counterexample :
    480000 < c3_s2.audio.length ∧ 30000 < c3_s2.buffer_duration := by
  have hlen := c3_s2_length
  constructor
  · omega
  · rw [AudioSlice.buffer_duration.eq_def, samples_to_duration.eq_def, hlen]
    decide

def c3_drop_state : AudioSlice :=
  { audio := List.replicate 16 (0 : ℚ), finalized := false, last_request := none,
    slice_id := 0, start_time := some (0, 5), tentative_transcript_opt := none }

theorem c3_witness :
    c3_drop_state.fits_within_this_slice 2000000 = false ∧
    c3_drop_state.add_audio 2000000 (List.replicate 6 (0 : Int)) 9 = c3_drop_state :=
  ⟨by decide,
   c3_out_of_window_drop c3_drop_state 2000000 (List.replicate 6 (0 : Int)) 9 (by decide)⟩

/-! ## C2 -/

theorem getD_cons6 (a b c d e f : Int) (t : List Int) (n : Nat) :
    (a :: b :: c :: d :: e :: f :: t).getD (n + 6) 0 = t.getD n 0 := by
  rw [show n + 6 = (n + 5) + 1 by ring, List.getD_cons_succ,
    show n + 5 = (n + 4) + 1 by ring, List.getD_cons_succ,
    show n + 4 = (n + 3) + 1 by ring, List.getD_cons_succ,
    show n + 3 = (n + 2) + 1 by ring, List.getD_cons_succ,
    show n + 2 = (n + 1) + 1 by ring, List.getD_cons_succ,
    List.getD_cons_succ]

theorem downmix_getD : ∀ (l : List Int) (i : Nat), i < l.length / 6 →
    (downmix l).getD i 0 =
      (((l.getD (6 * i) 0 : Int) : ℚ) + ((l.getD (6 * i + 1) 0 : Int) : ℚ)) / 65534
  | a :: b :: c :: d :: e :: f :: rest, 0, h => by
    simp [downmix]
  | a :: b :: c :: d :: e :: f :: rest, i + 1, h => by
    have hr : i < rest.length / 6 := by
      simp only [List.length_cons] at h
      omega
    have ih := downmix_getD rest i hr
    rw [show 6 * (i + 1) = 6 * i + 6 by ring, getD_cons6,
      show 6 * i + 6 + 1 = (6 * i + 1) + 6 by ring, getD_cons6]
    simp only [downmix, List.getD_cons_succ]
    exact ih
  | [], i, h => by simp only [List.length_nil] at h; omega
  | [_], i, h => by simp only [List.length_cons, List.length_nil] at h; omega
  | [_, _], i, h => by simp only [List.length_cons, List.length_nil] at h; omega
  | [_, _, _], i, h => by simp only [List.length_cons, List.length_nil] at h; omega
  | [_, _, _, _], i, h => by simp only [List.length_cons, List.length_nil] at h; omega
  | [_, _, _, _, _], i, h => by simp only [List.length_cons, List.length_nil] at h; omega

theorem downmix_bounds : ∀ l : List Int, (∀ x ∈ l, -32768 ≤ x ∧ x ≤ 32767) →
    ∀ q ∈ downmix l, -(65536 : ℚ) / 65534 ≤ q ∧ q ≤ 1
  | a :: b :: c :: d :: e :: f :: rest, hb, q, hq => by
    simp only [downmix, List.mem_cons] at hq
    rcases hq with rfl | hq
    · have ha := hb a (by simp)
      have hb2 := hb b (by simp)
      have ha1 : (-32768 : ℚ) ≤ (a : ℚ) := by exact_mod_cast ha.1
      have ha2 : (a : ℚ) ≤ 32767 := by exact_mod_cast ha.2
      have hb1 : (-32768 : ℚ) ≤ (b : ℚ) := by exact_mod_cast hb2.1
      have hb3 : (b : ℚ) ≤ 32767 := by exact_mod_cast hb2.2
      constructor
      · rw [div_le_div_iff_of_pos_right (by norm_num : (0 : ℚ) < 65534)]
        linarith
      · rw [div_le_one (by norm_num : (0 : ℚ) < 65534)]
        linarith
    · exact downmix_bounds rest (fun x hx => hb x (by simp [hx])) q hq
  | [], _, q, hq => by simp [downmix] at hq
  | [_], _, q, hq => by simp [downmix] at hq
  | [_, _], _, q, hq => by simp [downmix] at hq
  | [_, _, _], _, q, hq => by simp [downmix] at hq
  | [_, _, _, _], _, q, hq => by simp [downmix] at hq
  | [_, _, _, _, _], _, q, hq => by simp [downmix] at hq

theorem downmix_replicate : ∀ (n : Nat) (v : Int),
    ∀ q ∈ downmix (List.replicate n v), q = (v : ℚ) / 32767
  | n + 6, v, q, hq => by
    have hrep : List.replicate (n + 6) v =
        v :: v :: v :: v :: v :: v :: List.replicate n v := by
      rw [show n + 6 = 6 + n by ring, List.replicate_add]
      rfl
    rw [hrep] at hq
    simp only [downmix, List.mem_cons] at hq
    rcases hq with rfl | hq
    · rw [div_eq_div_iff (by norm_num) (by norm_num)]
      ring
    · exact downmix_replicate n v q hq
  | 0, v, q, hq => by simp [downmix] at hq
  | 1, v, q, hq => by simp [List.replicate, downmix] at hq
  | 2, v, q, hq => by simp [List.replicate, downmix] at hq
  | 3, v, q, hq => by simp [List.replicate, downmix] at hq
  | 4, v, q, hq => by simp [List.replicate, downmix] at hq
  | 5, v, q, hq => by simp [List.replicate, downmix] at hq

theorem resample_getD (s : AudioSlice) (st : Nat) (inp : List Int) (i : Nat)
    (h : i < inp.length / 6) :
    (s.resample_audio_from_discord_to_whisper st inp).audio.getD (st + i) 0 =
      (downmix inp).getD i 0 := by
  unfold AudioSlice.resample_audio_from_discord_to_whisper
  simp only [discord_samples_to_whisper_samples]
  have htake : ((s.audio ++
      List.replicate (max s.audio.length (st + inp.length / 6) - s.audio.length)
        (0 : ℚ)).take st).length = st := by
    simp only [List.length_take, List.length_append, List.length_replicate]
    omega
  have h1 : st + i < (((s.audio ++
      List.replicate (max s.audio.length (st + inp.length / 6) - s.audio.length)
        (0 : ℚ)).take st) ++ downmix inp).length := by
    rw [List.length_append, htake, downmix_length]
    omega
  rw [List.getD_append _ _ _ _ h1]
  rw [List.getD_append_right _ _ _ _ (by rw [htake]; omega)]
  rw [htake, Nat.add_sub_cancel_left]

theorem resample_bounds (s : AudioSlice) (st : Nat) (inp : List Int)
    (hs : ∀ x ∈ s.audio, -(65536 : ℚ) / 65534 ≤ x ∧ x ≤ 1)
    (hi : ∀ x ∈ inp, -32768 ≤ x ∧ x ≤ 32767) :
    ∀ q ∈ (s.resample_audio_from_discord_to_whisper st inp).audio,
      -(65536 : ℚ) / 65534 ≤ q ∧ q ≤ 1 := by
  intro q hq
  unfold AudioSlice.resample_audio_from_discord_to_whisper at hq
  simp only [List.mem_append] at hq
  have hresized : ∀ x ∈ s.audio ++
      List.replicate
        (max s.audio.length (st + discord_samples_to_whisper_samples inp.length) -
          s.audio.length) (0 : ℚ),
      -(65536 : ℚ) / 65534 ≤ x ∧ x ≤ 1 := by
    intro x hx
    rcases List.mem_append.mp hx with hx | hx
    · exact hs x hx
    · rw [List.eq_of_mem_replicate hx]
      norm_num
  rcases hq with (hq | hq) | hq
  · exact hresized q (List.take_subset _ _ hq)
  · exact downmix_bounds inp hi q hq
  · exact hresized q (List.drop_subset _ _ hq)

def c2_bad_input : List Int := [-32768, -32768, 0, 0, 0, 0]

/-- C2 (counterexample): adding a frame whose first two stereo samples are
both `i16::MIN = -32768` stores the sample `(-65536)/65534 < -1`, so the
stored audio does not lie in the closed interval `[-1, 1]`. -/
theorem c2_counterexample :
    ((AudioSlice.new 0).add_audio 0 c2_bad_input 5).audio.getD 0 0 < -1 := by
  have h : ((AudioSlice.new 0).add_audio 0 c2_bad_input 5).audio.getD 0 0 =
      ((-32768 : ℚ) + (-32768 : ℚ)) / 65534 := by
    simp [AudioSlice.add_audio, AudioSlice.new, AudioSlice.fits_within_this_slice,
      AudioSlice.resample_audio_from_discord_to_whisper, c2_bad_input, downmix,
      discord_samples_to_whisper_samples, List.replicate]
  rw [h]
  norm_num

/-- C2 (amended): each mono sample written by the resampler equals the sum
of the first two samples of its group of 6 consecutive input samples
divided by `i16::MAX * 2 = 65534`; all stored samples lie in the interval
`[-65536/65534, 1]` (not `[-1, 1]`: the lower end overshoots because the
most negative 16-bit value is `-32768`, not `-32767`) provided the
pre-existing samples do; and a DC input maps with unity gain
(every produced sample equals `v / 32767 = v / i16::MAX`). -/
theorem c2_resample_spec :
    (∀ (s : AudioSlice) (st : Nat) (inp : List Int) (i : Nat), i < inp.length / 6 →
      (s.resample_audio_from_discord_to_whisper st inp).audio.getD (st + i) 0 =
        (((inp.getD (6 * i) 0 : Int) : ℚ) + ((inp.getD (6 * i + 1) 0 : Int) : ℚ)) / 65534) ∧
    (∀ (s : AudioSlice) (st : Nat) (inp : List Int),
      (∀ x ∈ s.audio, -(65536 : ℚ) / 65534 ≤ x ∧ x ≤ 1) →
      (∀ x ∈ inp, -32768 ≤ x ∧ x ≤ 32767) →
      ∀ q ∈ (s.resample_audio_from_discord_to_whisper st inp).audio,
        -(65536 : ℚ) / 65534 ≤ q ∧ q ≤ 1) ∧
    (∀ (n : Nat) (v : Int), ∀ q ∈ downmix (List.replicate n v), q = (v : ℚ) / 32767) :=
  ⟨fun s st inp i h => (resample_getD s st inp i h).trans (downmix_getD inp i h),
   resample_bounds, downmix_replicate⟩

def c2_dc_input : List Int := List.replicate 6 (100 : Int)

theorem c2_witness :
    (0 < c2_dc_input.length / 6 ∧
     ((AudioSlice.new 0).resample_audio_from_discord_to_whisper 0 c2_dc_input).audio.getD
        (0 + 0) 0 =
       (((c2_dc_input.getD (6 * 0) 0 : Int) : ℚ) +
         ((c2_dc_input.getD (6 * 0 + 1) 0 : Int) : ℚ)) / 65534) ∧
    (∀ q ∈ ((AudioSlice.new 0).resample_audio_from_discord_to_whisper 0 c2_dc_input).audio,
      -(65536 : ℚ) / 65534 ≤ q ∧ q ≤ 1) ∧
    (∀ q ∈ downmix (List.replicate 6 (100 : Int)), q = ((100 : Int) : ℚ) / 32767) :=
  ⟨⟨by decide,
    c2_resample_spec.1 (AudioSlice.new 0) 0 c2_dc_input 0 (by decide)⟩,
   c2_resample_spec.2.1 (AudioSlice.new 0) 0 c2_dc_input
     (by intro x hx; simp [AudioSlice.new] at hx) (by decide),
   c2_resample_spec.2.2 6 100⟩

/-! ## C6 -/

/-- The window membership as the spec words it: `ts` lies in
`[start.media_ts, start.media_ts + buffer_duration + 30 s)` expressed in
48 kHz ticks modulo `2^32`, the comparison taken on the directed
difference interpreted as an unsigned offset; an empty slice accepts any
timestamp. -/
def spec_fits_window (s : AudioSlice) (ts : Nat) : Bool :=
  match s.start_time with
  | none => true
  | some (a, _) =>
    decide ((ts + U32 - a) % U32 < duration_to_rtc (s.buffer_duration + 30000))

theorem fits_none (s : AudioSlice) (ts : Nat) (hs : s.start_time = none) :
    s.fits_within_this_slice ts = true := by
  unfold AudioSlice.fits_within_this_slice
  rw [hs]

theorem fits_some (s : AudioSlice) (a w ts : Nat) (hs : s.start_time = some (a, w)) :
    s.fits_within_this_slice ts =
      (if a < ((a + duration_to_rtc s.buffer_duration) % U32 + duration_to_rtc 30000) % U32 then
        decide (a ≤ ts ∧
          ts < ((a + duration_to_rtc s.buffer_duration) % U32 + duration_to_rtc 30000) % U32)
      else
        decide (ts < ((a + duration_to_rtc s.buffer_duration) % U32 + duration_to_rtc 30000) % U32 ∨
          a ≤ ts)) := by
  unfold AudioSlice.fits_within_this_slice
  rw [hs]

theorem spec_fits_none (s : AudioSlice) (ts : Nat) (hs : s.start_time = none) :
    spec_fits_window s ts = true := by
  unfold spec_fits_window
  rw [hs]

theorem spec_fits_some (s : AudioSlice) (a w ts : Nat) (hs : s.start_time = some (a, w)) :
    spec_fits_window s ts =
      decide ((ts + U32 - a) % U32 < duration_to_rtc (s.buffer_duration + 30000)) := by
  unfold spec_fits_window
  rw [hs]

theorem ite_decide_true (c p q : Prop) [Decidable c] [Decidable p] [Decidable q] :
    ((if c then decide p else decide q) = true) ↔ ((c ∧ p) ∨ (¬ c ∧ q)) := by
  by_cases h : c
  · simp [h]
  · simp [h]

/-- C6 (amended): `fits_within_this_slice` agrees with the spec's
wrap-aware directed-difference membership test (true on an empty slice,
else true iff the directed offset of `ts` from `start.media_ts` is below
the window length in 48 kHz ticks mod `2^32`), except in one corner: when
`(buffer_duration + 30 s) * 48` is congruent to 0 modulo `2^32` the code's
wrap branch accepts every timestamp although the spec's window is empty. -/
theorem c6_fits_spec (s : AudioSlice) (ts : Nat) (hts : ts < U32)
    (ha : ∀ a w, s.start_time = some (a, w) → a < U32) :
    s.fits_within_this_slice ts = true ↔
      (spec_fits_window s ts = true ∨
        duration_to_rtc (s.buffer_duration + 30000) = 0) := by
  cases hst : s.start_time with
  | none => simp [fits_none s ts hst, spec_fits_none s ts hst]
  | some p =>
    obtain ⟨a, w⟩ := p
    have haw : a < 4294967296 := ha a w hst
    have hts2 : ts < 4294967296 := hts
    rw [fits_some s a w ts hst, spec_fits_some s a w ts hst, ite_decide_true]
    simp only [decide_eq_true_eq, duration_to_rtc, U32]
    rw [Nat.add_mul]
    simp only [Nat.add_mod_mod, Nat.mod_add_mod]
    rw [Nat.add_assoc a (s.buffer_duration * 48) (30000 * 48),
      ← Nat.add_mod_mod a (s.buffer_duration * 48 + 30000 * 48) 4294967296]
    generalize hgen : (s.buffer_duration * 48 + 30000 * 48) % 4294967296 = L
    have hL : L < 4294967296 := by
      rw [← hgen]
      exact Nat.mod_lt _ (by norm_num)
    clear hgen
    omega

def c6_state : AudioSlice :=
  { audio := List.replicate 4294487296 (0 : ℚ), finalized := false, last_request := none,
    slice_id := 0, start_time := some (0, 5), tentative_transcript_opt := none }

/-- C6 (counterexample): a slice buffering 268405456 ms of audio (so that
`(buffer_duration + 30000) * 48 ≡ 0 (mod 2^32)`) accepts the timestamp 7
although the spec's half-open window of that length modulo `2^32` is empty
under the directed-difference comparison. -/
theorem c6_counterexample :
    c6_state.fits_within_this_slice 7 = true ∧ spec_fits_window c6_state 7 = false := by
  have hlen : c6_state.audio.length = 4294487296 := by
    simp only [c6_state, List.length_replicate]
  have hbd : c6_state.buffer_duration = 268405456 := by
    rw [AudioSlice.buffer_duration.eq_def, samples_to_duration.eq_def, hlen]
  constructor
  · rw [fits_some c6_state 0 5 7 rfl, hbd]
    decide
  · rw [spec_fits_some c6_state 0 5 7 rfl, hbd]
    decide

def c6_w_state : AudioSlice :=
  { audio := List.replicate 16 (0 : ℚ), finalized := false, last_request := none,
    slice_id := 0, start_time := some (0, 5), tentative_transcript_opt := none }

theorem c6_witness :
    (7 : Nat) < U32 ∧
    (c6_w_state.fits_within_this_slice 7 = true ↔
      (spec_fits_window c6_w_state 7 = true ∨
        duration_to_rtc (c6_w_state.buffer_duration + 30000) = 0)) :=
  ⟨by decide,
   c6_fits_spec c6_w_state 7 (by decide)
     (by
       intro a w h
       simp [c6_w_state] at h
       simp only [U32]
       omega)⟩

/-! ## C7 -/

theorem is_ready_eq (s : AudioSlice) (a w : Nat) (hs : s.start_time = some (a, w))
    (hf : s.finalized = false)
    (hip : ∀ r, s.last_request = some r → r.in_progress = false) :
    s.is_ready_for_transcription false =
      decide ((match s.last_request with
        | some r => r.effective_duration / 5000
        | none => 0) ≠ s.buffer_duration / 5000) := by
  unfold AudioSlice.is_ready_for_transcription
  rw [hs, hf]
  cases hlr : s.last_request with
  | none => simp
  | some r =>
    have hr := hip r hlr
    simp [hr]

/-- C7 (amended): with `start` set, `finalized` false, no request in
progress and `user_idle` false (and the I4 invariant
`audio_trimmed_since_request ≤ original_duration`, under which the Rust
`Duration` subtraction in `effective_duration` cannot underflow),
`make_transcription_request` returns Some iff the 5000 ms period of the
buffer duration differs from that of the last request's effective
duration (0 when none) AND the snapshot is not suppressed by the
duplicate guard (a stored `last_request` with the same wall start time
and the same original duration as the new snapshot). -/
theorem c7_period_gate (s : AudioSlice) (a w now : Nat)
    (hs : s.start_time = some (a, w))
    (hf : s.finalized = false)
    (hip : ∀ r, s.last_request = some r → r.in_progress = false)
    (h4 : ∀ r, s.last_request = some r →
      r.audio_trimmed_since_request ≤ r.original_duration) :
    (s.make_transcription_request false now).1.isSome = true ↔
      ((match s.last_request with
        | some r => r.effective_duration / 5000
        | none => 0) ≠ s.buffer_duration / 5000 ∧
       ¬ ∃ r, s.last_request = some r ∧ r.start_time = w ∧
          r.original_duration = s.buffer_duration) := by
  by_cases hp : ((match s.last_request with
      | some r => r.effective_duration / 5000
      | none => 0) ≠ s.buffer_duration / 5000)
  · have hready : s.is_ready_for_transcription false = true := by
      rw [is_ready_eq s a w hs hf hip]
      simp [hp]
    cases hlr : s.last_request with
    | none =>
      rw [hlr] at hp
      simp [AudioSlice.make_transcription_request, hready, hs, hlr]
      simpa using hp
    | some r =>
      rw [hlr] at hp
      by_cases hdup : r.start_time = w ∧ r.original_duration = s.buffer_duration
      · simp [AudioSlice.make_transcription_request, hready, hs, hlr, hf, hdup, hp]
      · simp only [AudioSlice.make_transcription_request, hready, hs, hlr]
        simp [hdup, hp]
  · have hready : s.is_ready_for_transcription false = false := by
      rw [is_ready_eq s a w hs hf hip]
      simp at hp
      simp [hp]
    simp [AudioSlice.make_transcription_request, hready, hp]

def c7_dup_request : LastRequestInfo :=
  { start_time := 50, original_duration := 5000, audio_trimmed_since_request := 3000,
    in_progress := false, requested_at := 0, final_request := false }

def c7_dup_state : AudioSlice :=
  { audio := List.replicate 80000 (0 : ℚ), finalized := false,
    last_request := some c7_dup_request,
    slice_id := 0, start_time := some (0, 50), tentative_transcript_opt := none }

theorem c7_dup_state_bd : c7_dup_state.buffer_duration = 5000 := by
  have hlen : c7_dup_state.audio.length = 80000 := by
    simp only [c7_dup_state, List.length_replicate]
  rw [AudioSlice.buffer_duration.eq_def, samples_to_duration.eq_def, hlen]

/-- C7 (counterexample): a slice holding 5000 ms of audio whose stored
request has the same wall start time and the same original duration but
3000 ms already trimmed: the periods differ (`2000/5000 = 0` versus
`5000/5000 = 1`) so the claim demands Some, yet the duplicate guard makes
`make_transcription_request(false)` return None. -/
theorem c7_counterexample :
    c7_dup_request.effective_duration / 5000 ≠ c7_dup_state.buffer_duration / 5000 ∧
    (c7_dup_state.make_transcription_request false 99).1 = none := by
  constructor
  · rw [c7_dup_state_bd]
    decide
  · have hready : c7_dup_state.is_ready_for_transcription false = true := by
      rw [is_ready_eq c7_dup_state 0 50 rfl rfl]
      · rw [c7_dup_state_bd]
        decide
      · intro r h
        simp only [c7_dup_state, Option.some.injEq] at h
        rw [← h]
        decide
    simp only [AudioSlice.make_transcription_request, hready, if_true]
    rw [c7_dup_state_bd]
    decide

def c7_w_state : AudioSlice :=
  { audio := List.replicate 16 (0 : ℚ), finalized := false, last_request := none,
    slice_id := 0, start_time := some (0, 5), tentative_transcript_opt := none }

theorem c7_witness :
    c7_w_state.start_time = some (0, 5) ∧ c7_w_state.finalized = false ∧
    ((c7_w_state.make_transcription_request false 3).1.isSome = true ↔
      ((match c7_w_state.last_request with
        | some r => r.effective_duration / 5000
        | none => 0) ≠ c7_w_state.buffer_duration / 5000 ∧
       ¬ ∃ r, c7_w_state.last_request = some r ∧ r.start_time = 5 ∧
          r.original_duration = c7_w_state.buffer_duration)) :=
  ⟨rfl, rfl,
   c7_period_gate c7_w_state 0 5 3 rfl rfl
     (by intro r h; simp [c7_w_state] at h)
     (by intro r h; simp [c7_w_state] at h)⟩

/-! ## C9 -/

def committed_request (s : AudioSlice) (w n1 : Nat) : LastRequestInfo :=
  { start_time := w, audio_trimmed_since_request := 0,
    original_duration := s.buffer_duration, in_progress := true,
    requested_at := n1, final_request := s.finalized }

theorem make_after_commit (s : AudioSlice) (a w n1 : Nat) (b2 : Bool) (n2 : Nat)
    (hs : s.start_time = some (a, w)) :
    (({ s with last_request := some (committed_request s w n1) } : AudioSlice
      ).make_transcription_request b2 n2).1 = none := by
  rcases Bool.eq_false_or_eq_true s.finalized with hf | hf
  · simp [AudioSlice.make_transcription_request, AudioSlice.is_ready_for_transcription,
      AudioSlice.buffer_duration, committed_request, hs, hf]
  · have hready : (({ s with last_request := some (committed_request s w n1) } :
        AudioSlice).is_ready_for_transcription b2) = false := by
      simp [AudioSlice.is_ready_for_transcription, committed_request, hs, hf]
    simp [AudioSlice.make_transcription_request, hready]

/-- C9 (amended): for every slice state and any pair of flag values, if
`make_transcription_request` is called twice in immediate succession (no
operation of any kind between the calls) and the first call returns Some,
the second call returns None: the committed request either blocks
readiness via its `in_progress` flag or is caught by the duplicate
guard. -/
theorem c9_no_double_issue (s : AudioSlice) (b1 b2 : Bool) (n1 n2 : Nat)
    (h : (s.make_transcription_request b1 n1).1.isSome = true) :
    ((s.make_transcription_request b1 n1).2.make_transcription_request b2 n2).1 = none := by
  cases hready : s.is_ready_for_transcription b1 with
  | false => simp [AudioSlice.make_transcription_request, hready] at h
  | true =>
    cases hst : s.start_time with
    | none => simp [AudioSlice.make_transcription_request, hready, hst] at h
    | some p =>
      obtain ⟨a, w⟩ := p
      cases hlr : s.last_request with
      | none =>
        have h2 : (s.make_transcription_request b1 n1).2 =
            { s with last_request := some (committed_request s w n1) } := by
          simp [AudioSlice.make_transcription_request, committed_request, hready, hst, hlr]
        rw [h2]
        exact make_after_commit s a w n1 b2 n2 hst
      | some r =>
        by_cases hdup : r.start_time = w ∧ r.original_duration = s.buffer_duration
        · cases hf : s.finalized with
          | false =>
            simp [AudioSlice.make_transcription_request, hready, hst, hlr, hdup, hf] at h
          | true =>
            simp [AudioSlice.make_transcription_request, hready, hst, hlr, hdup, hf] at h
        · have h2 : (s.make_transcription_request b1 n1).2 =
              { s with last_request := some (committed_request s w n1) } := by
            simp [AudioSlice.make_transcription_request, committed_request, hready, hst,
              hlr, hdup]
          rw [h2]
          exact make_after_commit s a w n1 b2 n2 hst

def c9_ce_state : AudioSlice :=
  { audio := [], finalized := false, last_request := none,
    slice_id := 0, start_time := some (0, 5), tentative_transcript_opt := none }

/-- C9 (counterexample): two immediately successive calls with no
intervening `add_audio` and no transcription response, flags
`(user_idle = false, user_idle = true)`: the first call returns None (the
period gate fails on a slice below 5000 ms) and the second returns Some —
so "the second call returns None" fails as the claim states it. -/
theorem c9_counterexample :
    (c9_ce_state.make_transcription_request false 1).1 = none ∧
    ((c9_ce_state.make_transcription_request false 1).2.make_transcription_request
      true 2).1.isSome = true := by
  decide

theorem c9_witness :
    (c9_ce_state.make_transcription_request true 1).1.isSome = true ∧
    ((c9_ce_state.make_transcription_request true 1).2.make_transcription_request
      false 2).1 = none :=
  ⟨by decide, c9_no_double_issue c9_ce_state true false 1 2 (by decide)⟩
